import Mathlib

/-!
Verification development for the tonie-uploader repository.

The JavaScript sources (api/upload-file.js, api/upload-from-youtube.js,
api/households.js, api/auth.js, utils/auth.js) are shallowly embedded below.
JS strings (including "binary"-encoded request bodies and Buffers) are
modelled as Lean `String` / `List Char`; JS numbers as `Nat`/`Int` where the
code only performs exact integer arithmetic.  Network effects (fetch calls to
the Tonie API, the session provider and the storage backend) are modelled as
explicit oracle parameters, and every handler additionally returns the
ordered list of calls it performed, so that ordering / call-count properties
can be stated.  Timestamps (`new Date().toISOString()`), console logging and
temporary-file cleanup are elided, as are upstream payload shapes the claims
never exercise.
-/

set_option maxRecDepth 100000

namespace TonieUploader

/-! ## Generic string helpers (JS string primitives over `List Char`)

These model the JavaScript string operations used by the sources:
`split`, `includes`, `indexOf`, `lastIndexOf`, `startsWith`, `trim`,
`toLowerCase`, `slice`/`substring`.  All are structurally recursive so that
concrete inputs evaluate inside the kernel. -/

/-- JS `String.prototype.split` with a non-empty separator, over char lists.
`skip > 0` means we are still inside a previously matched separator. -/
def splitSkip (sep : List Char) : List Char → List Char → Nat → List (List Char)
  | [], acc, _ => [acc.reverse]
  | _ :: rest, acc, Nat.succ k => splitSkip sep rest acc k
  | c :: rest, acc, 0 =>
    if sep ≠ [] ∧ sep.isPrefixOf (c :: rest) then
      acc.reverse :: splitSkip sep rest [] (sep.length - 1)
    else
      splitSkip sep rest (c :: acc) 0

/-- JS `"s".split(sep)` for a non-empty `sep`. -/
def jsSplit (sep : List Char) (l : List Char) : List (List Char) :=
  splitSkip sep l [] 0

/-- JS `String.prototype.includes` (substring test). -/
def containsSub (pat : List Char) : List Char → Bool
  | [] => pat.isEmpty
  | c :: rest => pat.isPrefixOf (c :: rest) || containsSub pat rest

/-- JS `String.prototype.indexOf` (first occurrence, `none` for `-1`). -/
def firstIdxOfL (pat : List Char) : List Char → Option Nat
  | [] => if pat.isEmpty then some 0 else none
  | c :: rest =>
    if pat.isPrefixOf (c :: rest) then some 0
    else (firstIdxOfL pat rest).map (· + 1)

/-- Helper for `lastIdxOfL`: index of the last occurrence at offset `i`. -/
def lastIdxAux (pat : List Char) : List Char → Nat → Option Nat
  | [], i => if pat.isEmpty then some i else none
  | c :: rest, i =>
    match lastIdxAux pat rest (i + 1) with
    | some j => some j
    | none => if pat.isPrefixOf (c :: rest) then some i else none

/-- JS `String.prototype.lastIndexOf` (`none` for `-1`). -/
def lastIdxOfL (pat : List Char) (l : List Char) : Option Nat :=
  lastIdxAux pat l 0

/-- JS `String.prototype.startsWith`. -/
def startsWithL (pat l : List Char) : Bool :=
  pat.isPrefixOf l

/-- ASCII lower-casing of one character (JS `toLowerCase` on ASCII input). -/
def lowerChar (c : Char) : Char :=
  if 'A' ≤ c ∧ c ≤ 'Z' then Char.ofNat (c.toNat + 32) else c

/-- JS `String.prototype.toLowerCase` (ASCII fragment). -/
def lowerStr (s : String) : String :=
  String.mk (s.data.map lowerChar)

/-- Whitespace characters recognised by JS `\s` / `trim` (ASCII fragment). -/
def isWsChar (c : Char) : Bool :=
  c = ' ' || c = '\t' || c = '\n' || c = '\r' || c = Char.ofNat 11 || c = Char.ofNat 12

/-- JS `String.prototype.trim` over char lists. -/
def trimChars (l : List Char) : List Char :=
  ((l.dropWhile isWsChar).reverse.dropWhile isWsChar).reverse

/-- JS `Array.prototype.join(sep)`. -/
def joinSep (sep : String) : List String → String
  | [] => ""
  | [s] => s
  | s :: rest => s ++ sep ++ joinSep sep rest

/-- Right-fold concatenation of a list of strings. -/
def concatAll : List String → String
  | [] => ""
  | s :: rest => s ++ concatAll rest

/-- JS `Array.prototype.pop` read-only view: last element, with default. -/
def lastD (l : List (List Char)) (d : List Char) : List Char :=
  l.getLastD d

/-! ## validateFile (api/upload-file.js lines 16-36)

The JS function receives the file Buffer but only reads its `length`, so the
embedding takes the length directly (api/upload-from-youtube.js's variant
literally takes `fileSize`). -/

/-- SUPPORTED_FORMATS from api/upload-file.js lines 5-8 (identical list in
api/upload-from-youtube.js lines 13-16). -/
def SUPPORTED_FORMATS : List String :=
  ["aac", "aiff", "aif", "flac", "mp3", "m4a", "m4b",
   "oga", "ogg", "opus", "wav", "wma"]

/-- MAX_FILE_SIZE from api/upload-file.js line 10 (1 GB). -/
def MAX_FILE_SIZE : Nat := 1073741824

/-- MAX_FILE_SIZE from api/upload-from-youtube.js line 18 (512 MB). -/
def MAX_FILE_SIZE_YT : Nat := 536870912

/-- MAX_FILENAME_LENGTH, both files. -/
def MAX_FILENAME_LENGTH : Nat := 128

/-- JS `Math.round(n / 1024 / 1024)` for a non-negative integer `n` (the
divisions are exact in double precision for the sizes involved; rounding is
half-away-from-zero, i.e. `⌊n/2^20 + 1/2⌋`). -/
def roundMB (n : Nat) : Nat := (n + 524288) / 1048576

/-- `filename.toLowerCase().split('.').pop()` from api/upload-file.js line 30. -/
def extOf (filename : String) : String :=
  String.mk (lastD (jsSplit ['.'] (lowerStr filename).data) [])

/-- The size-violation message pushed at api/upload-file.js line 21. -/
def sizeMsg (fileLength : Nat) : String :=
  "File size (" ++ toString (roundMB fileLength) ++
    "MB) exceeds maximum allowed size of 1GB"

/-- The size-violation message pushed at api/upload-from-youtube.js line 92. -/
def sizeMsgYT (fileLength : Nat) : String :=
  "File size (" ++ toString (roundMB fileLength) ++
    "MB) exceeds maximum allowed size of 512MB"

/-- The filename-length violation message (both files). -/
def lenMsg (filename : String) : String :=
  "Filename length (" ++ toString filename.length ++
    ") exceeds maximum allowed length of 128 characters"

/-- The format-violation message (both files); it cites the extracted
extension verbatim. -/
def fmtMsg (ext : String) : String :=
  "File format \"" ++ ext ++ "\" is not supported. Supported formats: " ++
    joinSep ", " SUPPORTED_FORMATS

/-- validateFile from api/upload-file.js lines 16-36. -/
def validateFile (fileLength : Nat) (filename : String) : List String :=
  (if fileLength > MAX_FILE_SIZE then [sizeMsg fileLength] else []) ++
  (if filename.length > MAX_FILENAME_LENGTH then [lenMsg filename] else []) ++
  (if SUPPORTED_FORMATS.contains (extOf filename) then [] else [fmtMsg (extOf filename)])

/-- validateFile from api/upload-from-youtube.js lines 87-107 (512 MB
ceiling, otherwise identical). -/
def validateFileYT (fileSize : Nat) (filename : String) : List String :=
  (if fileSize > MAX_FILE_SIZE_YT then [sizeMsgYT fileSize] else []) ++
  (if filename.length > MAX_FILENAME_LENGTH then [lenMsg filename] else []) ++
  (if SUPPORTED_FORMATS.contains (extOf filename) then [] else [fmtMsg (extOf filename)])

/-! ## parseMultipartData (api/upload-file.js lines 42-135) -/

/-- Result record of `parseMultipartData` (`{ fields, fileData, filename }`). -/
structure ParsedMultipart where
  fields : List (String × String)
  fileData : Option String
  filename : String
deriving DecidableEq, Repr

/-- JS object assignment `fields[k] = v` on an insertion-ordered map. -/
def setField (fields : List (String × String)) (k v : String) : List (String × String) :=
  match fields with
  | [] => [(k, v)]
  | kv :: rest => if kv.1 = k then (k, v) :: rest else kv :: setField rest k v

/-- JS property read `fields[k]`, with `""` standing for `undefined`
(both are falsy, which is all the handlers test). -/
def getField (fields : List (String × String)) (k : String) : String :=
  match fields.find? (fun kv => kv.1 = k) with
  | some kv => kv.2
  | none => ""

/-- The regex match `contentType.match(/boundary=([^;]+)/)` at
api/upload-file.js line 45: leftmost position where `boundary=` is followed
by at least one non-semicolon character; returns the captured run. -/
def findBoundaryMatch : List Char → Option (List Char)
  | [] => none
  | c :: rest =>
    if "boundary=".data.isPrefixOf (c :: rest) then
      let cap := ((c :: rest).drop 9).takeWhile (fun x => x ≠ ';')
      if cap ≠ [] then some cap else findBoundaryMatch rest
    else findBoundaryMatch rest

/-- The regex match `disposition.match(/name="([^"]+)"/)` (and the analogous
`filename="([^"]+)"`): leftmost position where `pat` is followed by a
non-empty run of non-quote characters and then a closing quote; returns the
captured run. -/
def regexCapture (pat : List Char) : List Char → Option (List Char)
  | [] => none
  | c :: rest =>
    if pat.isPrefixOf (c :: rest) then
      let after := (c :: rest).drop pat.length
      let cap := after.takeWhile (fun x => x ≠ '"')
      if cap ≠ [] ∧ (after.drop cap.length).head? = some '"' then some cap
      else regexCapture pat rest
    else regexCapture pat rest

/-- The body of the `for` loop at api/upload-file.js lines 61-126, processing
one boundary-delimited segment.  Note that for a file segment the JS assigns
`filename` *before* validating the payload delimiters, so a malformed file
segment still updates `filename` while leaving `fileData` and `fields`
untouched. -/
def processPart (st : ParsedMultipart) (part : List Char) : ParsedMultipart :=
  if ¬ containsSub "Content-Disposition".data part then st
  else
    match (jsSplit "\r\n".data part).find? (fun l => containsSub "Content-Disposition".data l) with
    | none => st
    | some disposition =>
      match regexCapture "name=\"".data disposition with
      | none => st
      | some fieldName =>
        match regexCapture "filename=\"".data disposition with
        | some fname =>
          let st := { st with filename := String.mk fname }
          match firstIdxOfL "\r\n\r\n".data part with
          | none => st
          | some i =>
            let ds := i + 4
            match lastIdxOfL "\r\n".data part with
            | none => st
            | some de =>
              if de ≤ ds then st
              else { st with fileData := some (String.mk ((part.drop ds).take (de - ds))) }
        | none =>
          match firstIdxOfL "\r\n\r\n".data part with
          | none => st
          | some i =>
            let ds := i + 4
            match lastIdxOfL "\r\n".data part with
            | none => st
            | some de =>
              if de ≤ ds then st
              else
                let v := String.mk ((part.drop ds).take (de - ds))
                { st with fields := setField st.fields (String.mk fieldName) v }

/-- parseMultipartData from api/upload-file.js lines 42-135.  The thrown
`Error` for a missing boundary is modelled as `Except.error` (the handler
catches it and answers 400). -/
def parseMultipartData (body contentType : String) : Except String ParsedMultipart :=
  match findBoundaryMatch contentType.data with
  | none => .error "Invalid multipart data: no boundary found in content-type"
  | some cap =>
    let boundary := cap.filter (fun c => c ≠ '"')
    let parts := jsSplit ("--".data ++ boundary) body.data
    .ok (parts.foldl processPart ⟨[], none, ""⟩)

/-! ## uploadToS3 (api/upload-file.js lines 140-176; the byte-identical copy
lives at api/upload-from-youtube.js lines 178-214) -/

/-- The `request` sub-object of an upload target
(`uploadRequest.request.url`, `uploadRequest.request.fields`).  The `fields`
mapping is kept in its given (insertion) order. -/
structure S3Request where
  url : String
  fields : List (String × String)
deriving DecidableEq, Repr

/-- UploadTarget (§3 of the spec): the presigned-POST descriptor returned by
the Tonie API's `/file` endpoint. -/
structure UploadTarget where
  fileId : String
  request : S3Request
deriving DecidableEq, Repr

/-- Response of the storage backend's POST (only `ok`, `status` and the error
text are read by the code). -/
structure S3Resp where
  ok : Bool
  status : Nat
  text : String
deriving DecidableEq, Repr

/-- The multipart body built at api/upload-file.js lines 143-160: a
string-accumulating loop over the target's fields, then the file part header,
then the raw file bytes, then the closing boundary.  `Buffer.concat` of the
UTF-8 header, the binary file data and the closing boundary is modelled as
string concatenation. -/
def uploadBody (boundary : String) (fields : List (String × String)) (filename fileData : String) : String :=
  let body := fields.foldl
    (fun acc kv => acc ++ "--" ++ boundary ++ "\r\n" ++
      "Content-Disposition: form-data; name=\"" ++ kv.1 ++ "\"\r\n\r\n" ++
      kv.2 ++ "\r\n") ""
  let body := body ++ "--" ++ boundary ++ "\r\n" ++
      "Content-Disposition: form-data; name=\"file\"; filename=\"" ++ filename ++ "\"\r\n" ++
      "Content-Type: application/octet-stream\r\n\r\n"
  body ++ fileData ++ ("\r\n--" ++ boundary ++ "--\r\n")

/-- uploadToS3 from api/upload-file.js lines 140-176.  The storage backend is
an oracle from the posted body to a response; the random boundary is a
parameter.  A non-2xx response is the thrown error (caught by the handler,
which answers 500); a 2xx response returns the `fileId` of the original
upload-target descriptor. -/
def uploadToS3 (uploadRequest : UploadTarget) (fileData filename boundary : String)
    (s3 : String → S3Resp) : Except String String :=
  let resp := s3 (uploadBody boundary uploadRequest.request.fields filename fileData)
  if resp.ok then .ok uploadRequest.fileId
  else .error ("S3 upload failed: " ++ toString resp.status ++ " " ++ resp.text)

/-! Specification-side view of the transfer body, used to state claim C1:
one part per field in the mapping's given order, then the file part. -/

/-- One `multipart/form-data` part for a single target field. -/
def fieldPartSpec (boundary k v : String) : String :=
  "--" ++ boundary ++ "\r\n" ++
    "Content-Disposition: form-data; name=\"" ++ k ++ "\"\r\n\r\n" ++ v ++ "\r\n"

/-- Header of the final file part: part name `file`, the payload's filename,
and an `application/octet-stream` content type. -/
def fileHeaderSpec (boundary filename : String) : String :=
  "--" ++ boundary ++ "\r\n" ++
    "Content-Disposition: form-data; name=\"file\"; filename=\"" ++ filename ++ "\"\r\n" ++
    "Content-Type: application/octet-stream\r\n\r\n"

/-- The closing boundary terminating the multipart body. -/
def closingSpec (boundary : String) : String :=
  "\r\n--" ++ boundary ++ "--\r\n"

/-! ## cleanFilename (api/upload-from-youtube.js lines 71-82) -/

/-- The character class kept by the regex replace at
api/upload-from-youtube.js line 73: `[a-zA-Z0-9\s\-\_\(\)]`. -/
def keepChar (c : Char) : Bool :=
  c.isAlpha || c.isDigit || isWsChar c || c = '-' || c = '_' || c = '(' || c = ')'

/-- `title.replace(/[^a-zA-Z0-9\s\-\_\(\)]/g, '').trim()` (line 73). -/
def cleanedOf (title : String) : String :=
  String.mk (trimChars (title.data.filter keepChar))

/-- The truncated title of api/upload-from-youtube.js lines 76-79.  The
length budget is a JS number that can go negative, so it is an `Int`;
`substring(0, n)` clamps a negative `n` to `0`. -/
def truncatedOf (title videoId : String) : String :=
  let cleaned := cleanedOf title
  let maxTitleLength : Int := 128 - (videoId.length : Int) - 20
  if (cleaned.length : Int) > maxTitleLength then
    String.mk (trimChars (cleaned.data.take maxTitleLength.toNat))
  else cleaned

/-- cleanFilename from api/upload-from-youtube.js lines 71-82. -/
def cleanFilename (title videoId : String) : String :=
  truncatedOf title videoId ++ " (" ++ videoId ++ ").m4a"

/-! ## Tonie API data model and oracles (utils/auth.js)

`makeTonieApiRequest` returns `{success, data}` or `{success, error,
status}`; the JSON `data` is modelled by the small sum `ApiData` covering the
shapes the handlers actually read.  `authenticateWithTonie` is modelled by
the `authSuccess`/`authError`/`sessionToken` oracle fields.  Request options
(method, body) do not influence which handler branch runs, so the API oracle
is keyed by the endpoint string alone. -/

/-- A creative tonie as read by the handlers (`id`, `name`,
optional `chapters` array; presentation-only fields elided). -/
structure Tonie where
  id : String
  name : String
  chapters : Option (List String)
deriving DecidableEq, Repr

/-- A household as read by the handlers. -/
structure Household where
  id : String
  name : String
deriving DecidableEq, Repr

/-- JSON payloads returned by the Tonie API, as read by the handlers. -/
inductive ApiData where
  | target (t : UploadTarget)
  | tonies (ts : List Tonie)
  | households (hs : List Household)
  | null
deriving DecidableEq, Repr

/-- Result shape of `makeTonieApiRequest` (utils/auth.js lines 83-123). -/
structure ApiResult where
  success : Bool
  status : Option Nat
  error : String
  data : ApiData
deriving DecidableEq, Repr

/-- `Array.isArray(result.data) ? result.data : []` (and
`householdResult.data || []`, whose non-array cases the claims never
exercise). -/
def asToniesArr : ApiData → List Tonie
  | .tonies ts => ts
  | _ => []

/-- Extracts the household array from `householdsResult.data`. -/
def asHouseholds : ApiData → List Household
  | .households hs => hs
  | _ => []

/-- Extracts the upload-target descriptor from `uploadRequestResult.data`. -/
def asTarget : ApiData → UploadTarget
  | .target t => t
  | _ => ⟨"", ⟨"", []⟩⟩

/-- `tonie.chapters?.length || 0`. -/
def chapterCount (t : Tonie) : Nat :=
  match t.chapters with
  | some l => l.length
  | none => 0

/-- `result.status || 500` (a `0`/absent status falls back to 500). -/
def statusOr500 : Option Nat → Nat
  | some s => if s = 0 then 500 else s
  | none => 500

/-- Environment configuration (`process.env.APP_PASSWORD`; the Tonie
service-account credentials only feed the auth oracle). -/
structure Env where
  appPassword : String
deriving DecidableEq, Repr

/-- verifyAppPassword from utils/auth.js lines 72-74:
`providedPassword && providedPassword === process.env.APP_PASSWORD`. -/
def verifyAppPassword (env : Env) (providedPassword : String) : Bool :=
  providedPassword ≠ "" ∧ providedPassword = env.appPassword

/-- One observable call performed while handling a request.  `parse` and
`gateCheck` are the local milestones (multipart decode, shared-secret gate);
`auth` is a login call to the session provider; `api` is a Tonie API request
carrying the bearer token it was issued with; `storage` is the presigned
POST to the storage backend. -/
inductive Event where
  | parse
  | gateCheck
  | auth
  | api (endpoint token : String)
  | storage (url : String)
deriving DecidableEq, Repr

/-- Network-side events (everything except the local milestones). -/
def isNetEvent : Event → Bool
  | .parse => false
  | .gateCheck => false
  | _ => true

/-- Structured response bodies; each constructor corresponds to one
`res.status(..).json(..)` site in the sources (timestamps elided). -/
inductive RespBody where
  | empty
  | methodNotAllowed
  | invalidContentType
  | parseFailed (details : String)
  | missingFields
  | invalidAppPassword
  | validationFailed (details : List String)
  | debugOk (filename : String) (fileSize : Nat) (title tonieId : String)
  | tonieAuthFailed (details : String)
  | uploadUrlFailed (details : String)
  | verifyFailed (details : String)
  | tonieNotFound (details : String) (available : List (String × String × Nat))
  | chapterFailed (details : String)
  | uploadSuccess (message fileId : String)
  | storageFailed (details : String)
  | invalidUrl (details : String)
  | videoInfoFailed (details : String)
  | downloadFailed (details : String)
  | householdsFailed (details : String)
  | householdNotFound (details : String) (available : List (String × String))
  | fetchToniesFailed (details : String)
  | uploadSuccessYT (message fileId filename : String) (fileSize : Nat)
  | householdsOk (households : List (Household × List (String × String × Nat)))
deriving DecidableEq, Repr

/-- An HTTP response: status code plus structured body. -/
structure Response where
  status : Nat
  body : RespBody
deriving DecidableEq, Repr

/-! ## Device-upload handler (api/upload-file.js lines 178-445) -/

/-- Inbound device-upload request: method, `Content-Type` header, raw
(binary-decoded) body.  Reading the body stream is modelled as already
complete. -/
structure DeviceReq where
  method : String
  contentType : Option String
  rawBody : String
deriving DecidableEq, Repr

/-- Oracles for the device-upload handler: the session provider
(`authSuccess`/`authError`/`sessionToken`), the Tonie API keyed by endpoint,
the storage backend keyed by posted body, and the random multipart
boundary. -/
structure Oracles where
  authSuccess : Bool
  authError : String
  sessionToken : String
  api : String → ApiResult
  s3 : String → S3Resp
  boundary : String

/-- The Creative-Tonie verification block of api/upload-file.js lines
345-384: fetch the household's creative tonies from the (sole) primary
endpoint, then search for the requested id; on a miss answer 404 with the
available ids/names/chapter counts. -/
def verifyCreativeTonie (api : String → ApiResult) (accessToken householdId creativeTonnieId : String) :
    (Response ⊕ Tonie) × List Event :=
  let ep := "/households/" ++ householdId ++ "/creativetonies"
  let r := api ep
  let evs := [Event.api ep accessToken]
  if r.success then
    let creativetonies := asToniesArr r.data
    match creativetonies.find? (fun t => t.id = creativeTonnieId) with
    | some t => (.inr t, evs)
    | none =>
      (.inl ⟨404, .tonieNotFound
        ("Creative-Tonie with ID \"" ++ creativeTonnieId ++ "\" not found in household \"" ++ householdId ++ "\"")
        (creativetonies.map (fun t => (t.id, t.name, chapterCount t)))⟩, evs)
  else
    (.inl ⟨statusOr500 r.status, .verifyFailed r.error⟩, evs)

/-- handler from api/upload-file.js lines 178-445 (the device-upload entry
path).  Returns the response together with the ordered list of observable
calls. -/
def deviceHandler (env : Env) (req : DeviceReq) (o : Oracles) : Response × List Event :=
  if req.method = "OPTIONS" then (⟨200, .empty⟩, [])
  else if req.method ≠ "POST" then (⟨405, .methodNotAllowed⟩, [])
  else
    match req.contentType with
    | none => (⟨400, .invalidContentType⟩, [])
    | some ct =>
      if ¬ containsSub "multipart/form-data".data ct.data then (⟨400, .invalidContentType⟩, [])
      else
        match parseMultipartData req.rawBody ct with
        | .error msg => (⟨400, .parseFailed msg⟩, [.parse])
        | .ok pr =>
          let appPassword := getField pr.fields "appPassword"
          let tonieId := getField pr.fields "tonieId"
          let title := getField pr.fields "title"
          if ¬ (appPassword ≠ "" ∧ tonieId ≠ "" ∧ title ≠ "" ∧ pr.fileData.isSome) then
            (⟨400, .missingFields⟩, [.parse])
          else if ¬ verifyAppPassword env appPassword then
            (⟨401, .invalidAppPassword⟩, [.parse, .gateCheck])
          else
            let fileData := pr.fileData.getD ""
            let validationErrors := validateFile fileData.length pr.filename
            if validationErrors ≠ [] then
              (⟨400, .validationFailed validationErrors⟩, [.parse, .gateCheck])
            else if startsWithL "DEBUG".data title.data then
              (⟨200, .debugOk pr.filename fileData.length title tonieId⟩, [.parse, .gateCheck])
            else if ¬ o.authSuccess then
              (⟨401, .tonieAuthFailed o.authError⟩, [.parse, .gateCheck, .auth])
            else
              let accessToken := o.sessionToken
              let r1 := o.api "/file"
              let ev1 : List Event := [.parse, .gateCheck, .auth, .api "/file" accessToken]
              if ¬ r1.success then (⟨statusOr500 r1.status, .uploadUrlFailed r1.error⟩, ev1)
              else
                let uploadRequest := asTarget r1.data
                match uploadToS3 uploadRequest fileData pr.filename o.boundary o.s3 with
                | .error msg =>
                  (⟨500, .storageFailed msg⟩, ev1 ++ [.storage uploadRequest.request.url])
                | .ok fileId =>
                  let ev2 := ev1 ++ [Event.storage uploadRequest.request.url]
                  let idParts := jsSplit ['/'] tonieId.data
                  let householdId := String.mk (idParts.headD [])
                  let creativeTonnieId := String.mk ((idParts.drop 1).headD [])
                  match verifyCreativeTonie o.api accessToken householdId creativeTonnieId with
                  | (.inl resp, evs) => (resp, ev2 ++ evs)
                  | (.inr _, evs) =>
                    let chapterEndpoint :=
                      "/households/" ++ householdId ++ "/creativetonies/" ++ creativeTonnieId ++ "/chapters"
                    let rc := o.api chapterEndpoint
                    let ev3 := ev2 ++ evs ++ [Event.api chapterEndpoint accessToken]
                    if ¬ rc.success then (⟨statusOr500 rc.status, .chapterFailed rc.error⟩, ev3)
                    else
                      (⟨200, .uploadSuccess
                        ("Successfully uploaded \"" ++ pr.filename ++ "\" as chapter \"" ++ title ++ "\"")
                        fileId⟩, ev3)

/-! ## YouTube-upload handler (api/upload-from-youtube.js lines 216-519) -/

/-- Metadata resolved by `getVideoInfo` (api/upload-from-youtube.js lines
34-66); live/private/unavailable classification happens inside the oracle. -/
structure VideoInfo where
  title : String
  duration : Nat
  author : String
  videoId : String
  description : String
deriving DecidableEq, Repr

/-- Inbound URL-upload request (JSON body fields; `none` models a missing
field, and JS falsiness also rejects the empty string). -/
structure YtReq where
  method : String
  appPassword : Option String
  tonieId : Option String
  title : Option String
  url : Option String
deriving DecidableEq, Repr

/-- JS truthiness of a possibly-missing string field. -/
def jsTruthy : Option String → Bool
  | none => false
  | some s => s ≠ ""

/-- Oracles for the URL-upload handler: URL-shape validation, metadata
resolution, the bounded download (byte count on success), the bytes read
back from the temporary file, and the same session/API/storage oracles as
the device path. -/
structure YtOracles where
  urlValid : Bool
  videoInfo : Except String VideoInfo
  download : Except String Nat
  fileContent : String
  authSuccess : Bool
  authError : String
  sessionToken : String
  api : String → ApiResult
  s3 : String → S3Resp
  boundary : String

/-- The Creative-Tonies fetch of api/upload-from-youtube.js lines 393-421:
primary endpoint, then one retry against the hyphenated variant, then give
up with the primary call's status. -/
def ytFetchCreativeTonies (api : String → ApiResult) (accessToken householdId : String) :
    (Except Response (List Tonie)) × List Event :=
  let ep := "/households/" ++ householdId ++ "/creativetonies"
  let r := api ep
  if r.success then (.ok (asToniesArr r.data), [Event.api ep accessToken])
  else
    let fep := "/households/" ++ householdId ++ "/creative-tonies"
    let fr := api fep
    if fr.success then
      (.ok (asToniesArr fr.data), [Event.api ep accessToken, Event.api fep accessToken])
    else
      (.error ⟨statusOr500 r.status, .fetchToniesFailed r.error⟩,
        [Event.api ep accessToken, Event.api fep accessToken])

/-- handler from api/upload-from-youtube.js lines 216-519 (the URL-upload
entry path).  Temporary-file creation and the `finally` cleanup have no
observable effect on the modelled outputs and are elided. -/
def ytHandler (env : Env) (req : YtReq) (o : YtOracles) : Response × List Event :=
  if req.method = "OPTIONS" then (⟨200, .empty⟩, [])
  else if req.method ≠ "POST" then (⟨405, .methodNotAllowed⟩, [])
  else
    if ¬ (jsTruthy req.appPassword ∧ jsTruthy req.tonieId ∧ jsTruthy req.title ∧ jsTruthy req.url) then
      (⟨400, .missingFields⟩, [])
    else if ¬ verifyAppPassword env (req.appPassword.getD "") then
      (⟨401, .invalidAppPassword⟩, [])
    else if ¬ o.urlValid then
      (⟨400, .invalidUrl "Invalid YouTube URL format"⟩, [])
    else
      match o.videoInfo with
      | .error e => (⟨400, .videoInfoFailed e⟩, [])
      | .ok videoInfo =>
        let filename := cleanFilename videoInfo.title videoInfo.videoId
        let validationErrors := validateFileYT 0 filename
        if validationErrors.length > 1 then
          (⟨400, .validationFailed
            (validationErrors.filter (fun e => ¬ containsSub "File size".data e.data))⟩, [])
        else
          match o.download with
          | .error e => (⟨400, .downloadFailed e⟩, [])
          | .ok fileSize =>
            let finalValidationErrors := validateFileYT fileSize filename
            if finalValidationErrors ≠ [] then
              (⟨400, .validationFailed finalValidationErrors⟩, [])
            else
              let fileData := o.fileContent
              if ¬ o.authSuccess then
                (⟨401, .tonieAuthFailed o.authError⟩, [.auth])
              else
                let accessToken := o.sessionToken
                let r1 := o.api "/file"
                let ev1 : List Event := [.auth, .api "/file" accessToken]
                if ¬ r1.success then (⟨statusOr500 r1.status, .uploadUrlFailed r1.error⟩, ev1)
                else
                  let uploadRequest := asTarget r1.data
                  match uploadToS3 uploadRequest fileData filename o.boundary o.s3 with
                  | .error msg =>
                    (⟨500, .storageFailed msg⟩, ev1 ++ [.storage uploadRequest.request.url])
                  | .ok fileId =>
                    let ev2 := ev1 ++ [Event.storage uploadRequest.request.url]
                    let tonieId := req.tonieId.getD ""
                    let idParts := jsSplit ['/'] tonieId.data
                    let householdId := String.mk (idParts.headD [])
                    let creativeTonnieId := String.mk ((idParts.drop 1).headD [])
                    let rh := o.api "/households"
                    let ev3 := ev2 ++ [Event.api "/households" accessToken]
                    if ¬ rh.success then (⟨statusOr500 rh.status, .householdsFailed rh.error⟩, ev3)
                    else
                      let households := asHouseholds rh.data
                      match households.find? (fun h => h.id = householdId) with
                      | none =>
                        (⟨404, .householdNotFound
                          ("Household with ID \"" ++ householdId ++ "\" not found")
                          (households.map (fun h => (h.id, h.name)))⟩, ev3)
                      | some _ =>
                        match ytFetchCreativeTonies o.api accessToken householdId with
                        | (.error resp, evs) => (resp, ev3 ++ evs)
                        | (.ok creativetonies, evs) =>
                          let ev4 := ev3 ++ evs
                          match creativetonies.find? (fun t => t.id = creativeTonnieId) with
                          | none =>
                            (⟨404, .tonieNotFound
                              ("Creative-Tonie with ID \"" ++ creativeTonnieId ++ "\" not found in household \"" ++ householdId ++ "\"")
                              (creativetonies.map (fun t => (t.id, t.name, chapterCount t)))⟩, ev4)
                          | some _ =>
                            let chapterEndpoint :=
                              "/households/" ++ householdId ++ "/creativetonies/" ++ creativeTonnieId ++ "/chapters"
                            let rc := o.api chapterEndpoint
                            let ev5 := ev4 ++ [Event.api chapterEndpoint accessToken]
                            if ¬ rc.success then (⟨statusOr500 rc.status, .chapterFailed rc.error⟩, ev5)
                            else
                              (⟨200, .uploadSuccessYT
                                ("Successfully uploaded \"" ++ videoInfo.title ++ "\" as chapter \"" ++ (req.title.getD "") ++ "\"")
                                fileId filename fileSize⟩, ev5)

/-! ## Households handler (api/households.js lines 4-129) -/

/-- Inbound directory-listing request (JSON body: `appPassword` and an
optional caller-supplied `sessionToken`). -/
structure HhReq where
  method : String
  appPassword : Option String
  sessionToken : Option String
deriving DecidableEq, Repr

/-- Oracles for the households handler. -/
structure HhOracles where
  authSuccess : Bool
  authError : String
  sessionToken : String
  api : String → ApiResult

/-- The per-household Creative-Tonies fetch of api/households.js lines
61-113: primary endpoint, hyphenated fallback, and an empty list (not an
error) when both fail.  The `Promise.all` fan-out is modelled sequentially
in household order. -/
def fetchToniesForHousehold (api : String → ApiResult) (accessToken : String) (h : Household) :
    (Household × List (String × String × Nat)) × List Event :=
  let ep := "/households/" ++ h.id ++ "/creativetonies"
  let r := api ep
  if r.success then
    ((h, (asToniesArr r.data).map (fun t => (t.id, t.name, chapterCount t))),
      [Event.api ep accessToken])
  else
    let fep := "/households/" ++ h.id ++ "/creative-tonies"
    let fr := api fep
    if fr.success then
      ((h, (asToniesArr fr.data).map (fun t => (t.id, t.name, chapterCount t))),
        [Event.api ep accessToken, Event.api fep accessToken])
    else
      ((h, []), [Event.api ep accessToken, Event.api fep accessToken])

/-- The households listing proper (api/households.js lines 45-120), run once
an access token is in hand; `ev0` are the events accumulated so far. -/
def householdsCore (o : HhOracles) (accessToken : String) (ev0 : List Event) :
    Response × List Event :=
  let rh := o.api "/households"
  let ev1 := ev0 ++ [Event.api "/households" accessToken]
  if ¬ rh.success then (⟨statusOr500 rh.status, .householdsFailed rh.error⟩, ev1)
  else
    let households := asHouseholds rh.data
    let pairs := households.map (fetchToniesForHousehold o.api accessToken)
    (⟨200, .householdsOk (pairs.map Prod.fst)⟩, ev1 ++ (pairs.map Prod.snd).flatten)

/-- handler from api/households.js lines 4-129.  When the caller supplies a
(truthy) `sessionToken` it is used directly and no login call is made;
otherwise a fresh token is fetched. -/
def householdsHandler (env : Env) (req : HhReq) (o : HhOracles) : Response × List Event :=
  if req.method = "OPTIONS" then (⟨200, .empty⟩, [])
  else if req.method ≠ "POST" then (⟨405, .methodNotAllowed⟩, [])
  else if ¬ verifyAppPassword env (req.appPassword.getD "") then
    (⟨401, .invalidAppPassword⟩, [])
  else if jsTruthy req.sessionToken then
    householdsCore o (req.sessionToken.getD "") []
  else if ¬ o.authSuccess then
    (⟨401, .tonieAuthFailed o.authError⟩, [.auth])
  else
    householdsCore o o.sessionToken [.auth]

/-! ## Helper lemmas -/

/-- Evaluating `Char.ofNat` at a valid code point. -/
theorem toNat_ofNat_valid (n : Nat) (hv : n.isValidChar) : (Char.ofNat n).toNat = n := by
  rw [Char.ofNat, dif_pos hv]
  simp [Char.ofNatAux, Char.toNat, UInt32.toNat]

/-- `lowerChar` never introduces a character that was not already there
unless it is a lower-case letter; in particular it cannot produce `'.'`. -/
theorem lowerChar_ne_dot (c : Char) (h : c ≠ '.') : lowerChar c ≠ '.' := by
  unfold lowerChar
  split
  case isTrue hr =>
    intro contra
    have h65 : 65 ≤ c.toNat := hr.1
    have h90 : c.toNat ≤ 90 := hr.2
    have hv : (c.toNat + 32).isValidChar := by
      left
      change c.toNat + 32 < 55296
      omega
    have h2 := congrArg Char.toNat contra
    rw [toNat_ofNat_valid _ hv] at h2
    have h3 : ('.' : Char).toNat = 46 := by decide
    omega
  case isFalse => exact h

/-- A single-character split of a list not containing the separator returns
the list unchanged (one segment). -/
theorem splitSkip_single_not_mem (c : Char) (l acc : List Char) (h : c ∉ l) :
    splitSkip [c] l acc 0 = [acc.reverse ++ l] := by
  induction l generalizing acc with
  | nil => simp [splitSkip]
  | cons x rest ih =>
    have hx : x ≠ c := by
      intro contra
      exact h (contra ▸ List.mem_cons_self x rest)
    have hrest : c ∉ rest := fun hm => h (List.mem_cons_of_mem x hm)
    have hpre : ¬ ([c].isPrefixOf (x :: rest) = true) := by
      simp [List.isPrefixOf, hx.symm]
    rw [splitSkip, if_neg (by simp [hpre])]
    rw [ih (x :: acc) hrest]
    simp

/-- `jsSplit` on a separator-free list yields a single segment. -/
theorem jsSplit_single_not_mem (c : Char) (l : List Char) (h : c ∉ l) :
    jsSplit [c] l = [l] := by
  simpa using splitSkip_single_not_mem c l [] h

/-- `lowerStr` preserves the absence of `'.'`. -/
theorem lowerStr_dot_not_mem (s : String) (h : '.' ∉ s.data) :
    '.' ∉ (lowerStr s).data := by
  unfold lowerStr
  intro hmem
  simp only [List.mem_map] at hmem
  obtain ⟨x, hx, hlx⟩ := hmem
  exact lowerChar_ne_dot x (fun hc => h (hc ▸ hx)) hlx

/-- On a dot-free filename `extOf` returns the entire lower-cased name. -/
theorem extOf_no_dot (filename : String) (h : '.' ∉ filename.data) :
    extOf filename = lowerStr filename := by
  unfold extOf lastD
  rw [jsSplit_single_not_mem '.' (lowerStr filename).data (lowerStr_dot_not_mem filename h)]
  simp

/-- The empty pattern is a substring of every list. -/
theorem containsSub_nil_pat (l : List Char) : containsSub [] l = true := by
  cases l <;> simp [containsSub, List.isPrefixOf, List.isEmpty]

/-- A pattern is a substring of any list that embeds it between a prefix and
a suffix. -/
theorem containsSub_embed (pat pre suf : List Char) :
    containsSub pat (pre ++ (pat ++ suf)) = true := by
  induction pre with
  | nil =>
    cases pat with
    | nil => exact containsSub_nil_pat _
    | cons p pr =>
      simp only [List.nil_append, List.cons_append, containsSub]
      have hp : (p :: pr).isPrefixOf (p :: (pr ++ suf)) = true := by
        rw [List.isPrefixOf_iff_prefix]
        exact ⟨suf, by simp⟩
      simp [hp]
  | cons x rest ih =>
    cases pat with
    | nil => exact containsSub_nil_pat _
    | cons p pr =>
      simp only [List.cons_append] at ih
      simp only [List.cons_append, containsSub, List.append_eq]
      rw [ih]
      simp

/-! ## Claim C1 -/

/-- The field loop of `uploadBody` emits one part per field, in the given
order. -/
theorem uploadBody_foldl (b : String) (fields : List (String × String)) (init : String) :
    fields.foldl
      (fun acc kv => acc ++ "--" ++ b ++ "\r\n" ++
        "Content-Disposition: form-data; name=\"" ++ kv.1 ++ "\"\r\n\r\n" ++
        kv.2 ++ "\r\n") init
    = init ++ concatAll (fields.map (fun kv => fieldPartSpec b kv.1 kv.2)) := by
  induction fields generalizing init with
  | nil => simp [concatAll]
  | cons kv rest ih =>
    simp only [List.foldl_cons, List.map_cons, concatAll, ih, fieldPartSpec]
    simp [String.append_assoc]

/-- Claim C1: for every upload target whose fields mapping is
`{key1: v1, key2: v2, ...}` and every file payload `B` with filename `F`,
the constructed storage-transfer multipart body contains, in the mapping's
given order, one part per field, then a final file part named `"file"` with
filename `F`, an `application/octet-stream` content type, and body exactly
`B`; and on a 2xx storage response the operation returns the `fileId` taken
from the original upload-target descriptor, not from the storage
response. -/
theorem C1_transfer_body_and_fileId (ur : UploadTarget) (fileData filename boundary : String)
    (s3 : String → S3Resp)
    (hok : (s3 (uploadBody boundary ur.request.fields filename fileData)).ok = true) :
    uploadBody boundary ur.request.fields filename fileData =
      concatAll (ur.request.fields.map (fun kv => fieldPartSpec boundary kv.1 kv.2)) ++
        (fileHeaderSpec boundary filename ++ (fileData ++ closingSpec boundary)) ∧
    uploadToS3 ur fileData filename boundary s3 = .ok ur.fileId := by
  constructor
  · unfold uploadBody
    rw [uploadBody_foldl]
    unfold fileHeaderSpec closingSpec
    simp [String.append_assoc]
  · simp [uploadToS3, hok]

/-- Witness for C1 at a concrete target with two fields and payload
`"BYTES"` named `"clip.mp3"`. -/
theorem C1_witness :
    uploadBody "B" [("k1", "v1"), ("k2", "v2")] "clip.mp3" "BYTES" =
      concatAll [fieldPartSpec "B" "k1" "v1", fieldPartSpec "B" "k2" "v2"] ++
        (fileHeaderSpec "B" "clip.mp3" ++ ("BYTES" ++ closingSpec "B")) ∧
    uploadToS3 ⟨"fid-42", ⟨"https://bucket", [("k1", "v1"), ("k2", "v2")]⟩⟩
        "BYTES" "clip.mp3" "B" (fun _ => ⟨true, 204, ""⟩) = .ok "fid-42" :=
  C1_transfer_body_and_fileId ⟨"fid-42", ⟨"https://bucket", [("k1", "v1"), ("k2", "v2")]⟩⟩
    "BYTES" "clip.mp3" "B" (fun _ => ⟨true, 204, ""⟩) (by decide)

/-! ## Claim C5 -/

/-- Claim C5: for every payload violating one or more validation rules
(path-specific size ceiling, filename length ≤ 128, supported-format
extension), validation returns the full list of all violated rules, not just
the first; and for every filename whose extension lies outside the supported
set, the format violation message references that exact extracted extension
(it is the message template instantiated at `extOf filename`, which embeds
the extension verbatim).  Stated for both entry paths' validators. -/
theorem C5_validation_reports_all_violations (fileLength fileSize : Nat) (filename : String) :
    (fileLength > MAX_FILE_SIZE → sizeMsg fileLength ∈ validateFile fileLength filename) ∧
    (filename.length > MAX_FILENAME_LENGTH → lenMsg filename ∈ validateFile fileLength filename) ∧
    (¬ SUPPORTED_FORMATS.contains (extOf filename) →
      fmtMsg (extOf filename) ∈ validateFile fileLength filename ∧
      containsSub (extOf filename).data (fmtMsg (extOf filename)).data = true) ∧
    (fileSize > MAX_FILE_SIZE_YT → sizeMsgYT fileSize ∈ validateFileYT fileSize filename) ∧
    (filename.length > MAX_FILENAME_LENGTH → lenMsg filename ∈ validateFileYT fileSize filename) ∧
    (¬ SUPPORTED_FORMATS.contains (extOf filename) →
      fmtMsg (extOf filename) ∈ validateFileYT fileSize filename) := by
  refine ⟨?_, ?_, ?_, ?_, ?_, ?_⟩ <;> intro h
  · simp [validateFile, h]
  · simp [validateFile, h]
  · constructor
    · have hmem : extOf filename ∉ SUPPORTED_FORMATS := by simpa using h
      simp [validateFile, h, hmem]
    · have hembed := containsSub_embed (extOf filename).data "File format \"".data
        ("\" is not supported. Supported formats: " ++ joinSep ", " SUPPORTED_FORMATS).data
      unfold fmtMsg
      simpa [String.data_append] using hembed
  · simp [validateFileYT, h]
  · simp [validateFileYT, h]
  · have hmem : extOf filename ∉ SUPPORTED_FORMATS := by simpa using h
    simp [validateFileYT, h, hmem]

/-- Witness for C5: a 1 GB + 1 byte payload with a 130-character
extension-free filename violates all three device-path rules at once, and
all three messages are present. -/
theorem C5_witness :
    sizeMsg 1073741825 ∈ validateFile 1073741825 (String.mk (List.replicate 130 'q')) ∧
    lenMsg (String.mk (List.replicate 130 'q')) ∈
      validateFile 1073741825 (String.mk (List.replicate 130 'q')) ∧
    fmtMsg (extOf (String.mk (List.replicate 130 'q'))) ∈
      validateFile 1073741825 (String.mk (List.replicate 130 'q')) := by
  have h := C5_validation_reports_all_violations 1073741825 0 (String.mk (List.replicate 130 'q'))
  exact ⟨h.1 (by decide), h.2.1 (by decide), (h.2.2.1 (by decide)).1⟩

/-! ## Claim C10 -/

/-- Claim C10 (implicit): for every filename containing no `'.'` character,
the format check treats the entire lower-cased filename as the extension, so
validation reports a format violation citing the whole lower-cased filename
as the unsupported extension unless the complete lower-cased filename is
itself one of the supported-format tokens (in which case the result carries
no format violation at all). -/
theorem C10_no_dot_whole_name_is_extension (fileLength : Nat) (filename : String)
    (h : '.' ∉ filename.data) :
    extOf filename = lowerStr filename ∧
    (¬ SUPPORTED_FORMATS.contains (lowerStr filename) →
      fmtMsg (lowerStr filename) ∈ validateFile fileLength filename) ∧
    (SUPPORTED_FORMATS.contains (lowerStr filename) →
      validateFile fileLength filename =
        (if fileLength > MAX_FILE_SIZE then [sizeMsg fileLength] else []) ++
        (if filename.length > MAX_FILENAME_LENGTH then [lenMsg filename] else [])) := by
  have hext := extOf_no_dot filename h
  refine ⟨hext, ?_, ?_⟩
  · intro hun
    have hmem : lowerStr filename ∉ SUPPORTED_FORMATS := by simpa using hun
    simp [validateFile, hext, hun, hmem]
  · intro hsup
    have hmem : lowerStr filename ∈ SUPPORTED_FORMATS := by simpa using hsup
    simp [validateFile, hext, hsup, hmem]

/-- Witness for C10 at the dot-free filenames `"NoExt"` (unsupported: the
violation cites `"noext"`) and `"WAV"` (the whole lower-cased name is a
supported token, so no format violation is emitted). -/
theorem C10_witness :
    fmtMsg (lowerStr "NoExt") ∈ validateFile 5 "NoExt" ∧
    validateFile 5 "WAV" = [] := by
  constructor
  · exact (C10_no_dot_whole_name_is_extension 5 "NoExt" (by decide)).2.1 (by decide)
  · have h := (C10_no_dot_whole_name_is_extension 5 "WAV" (by decide)).2.2 (by decide)
    simpa using h

/-! ## Claim C9 -/

/-- `trim` never lengthens a string. -/
theorem trimChars_length_le (l : List Char) : (trimChars l).length ≤ l.length := by
  unfold trimChars
  rw [List.length_reverse]
  calc ((l.dropWhile isWsChar).reverse.dropWhile isWsChar).length
      ≤ (l.dropWhile isWsChar).reverse.length := (List.dropWhile_sublist _).length_le
    _ = (l.dropWhile isWsChar).length := List.length_reverse _
    _ ≤ l.length := (List.dropWhile_sublist _).length_le

/-- For video ids short enough that the title budget is non-negative
(`videoId.length ≤ 108`), the truncated title plus the id fit in 108
characters. -/
theorem truncatedOf_length_le (title videoId : String) (h : videoId.length ≤ 108) :
    (truncatedOf title videoId).length + videoId.length ≤ 108 := by
  simp only [truncatedOf]
  split
  case isTrue hgt =>
    have h1 : (String.mk (trimChars
        ((cleanedOf title).data.take (128 - (videoId.length : Int) - 20).toNat))).length ≤
        (128 - (videoId.length : Int) - 20).toNat := by
      show (trimChars ((cleanedOf title).data.take (128 - (videoId.length : Int) - 20).toNat)).length ≤ _
      calc (trimChars ((cleanedOf title).data.take (128 - (videoId.length : Int) - 20).toNat)).length
          ≤ ((cleanedOf title).data.take (128 - (videoId.length : Int) - 20).toNat).length :=
            trimChars_length_le _
        _ ≤ (128 - (videoId.length : Int) - 20).toNat := by
            rw [List.length_take]
            exact min_le_left _ _
    omega
  case isFalse hle =>
    have : ((cleanedOf title).length : Int) ≤ 128 - (videoId.length : Int) - 20 := by omega
    omega

/-- Counterexample to claim C9 as stated: with title `"a"` and a 122-character
video id the derived filename has length 129 > 128 (the length budget
`128 - videoId.length - 20` is negative, JS clamps the truncation to the
empty string, and the fixed suffix alone exceeds the ceiling). -/
theorem C9_counterexample :
    128 < (cleanFilename "a" (String.mk (List.replicate 122 'x'))).length := by decide

/-- Claim C9 as amended: for every video title, and every videoId of length
at most 108 (so that the title budget `128 - videoId.length - 20` is
non-negative; real YouTube ids have 11 characters), the derived remote-audio
output filename equals the stripped-and-truncated title followed by
`" (" ++ videoId ++ ").m4a"`, and its length never exceeds 128. -/
theorem C9_filename_within_ceiling (title videoId : String) (h : videoId.length ≤ 108) :
    cleanFilename title videoId =
      truncatedOf title videoId ++ " (" ++ videoId ++ ").m4a" ∧
    (cleanFilename title videoId).length ≤ 128 := by
  refine ⟨rfl, ?_⟩
  have hb := truncatedOf_length_le title videoId h
  unfold cleanFilename
  rw [String.length_append, String.length_append, String.length_append]
  have h2 : (" (" : String).length = 2 := by decide
  have h5 : (").m4a" : String).length = 5 := by decide
  omega

/-- Witness for C9 at the standard 11-character id length. -/
theorem C9_witness :
    cleanFilename "My Song!" "dQw4w9WgXcQ" =
      truncatedOf "My Song!" "dQw4w9WgXcQ" ++ " (" ++ "dQw4w9WgXcQ" ++ ").m4a" ∧
    (cleanFilename "My Song!" "dQw4w9WgXcQ").length ≤ 128 :=
  C9_filename_within_ceiling "My Song!" "dQw4w9WgXcQ" (by decide)

/-! ## Claim C2 -/

/-- Counterexample to claim C2 as stated: on the *device-upload* path, when
the primary creative-tonies fetch fails, no retry against the hyphenated
alternate endpoint happens — the block issues exactly one API call and gives
up. -/
theorem C2_counterexample :
    (verifyCreativeTonie (fun _ => ⟨false, some 500, "HTTP 500: down", .null⟩)
        "tok" "h1" "t1").2 =
      [Event.api "/households/h1/creativetonies" "tok"] ∧
    Event.api "/households/h1/creative-tonies" "tok" ∉
      (verifyCreativeTonie (fun _ => ⟨false, some 500, "HTTP 500: down", .null⟩)
        "tok" "h1" "t1").2 := by decide

/-- Claim C2 as amended: when fetching the creative tonies of the resolved
household fails on the primary endpoint path, the *URL-upload* path retries
exactly once against the hyphenated alternate endpoint before giving up with
an error carrying the primary call's status; the *device-upload* path
performs no retry — it issues exactly one fetch (against the primary
endpoint) and gives up immediately.  (The household directory listing,
api/households.js, also retries the hyphenated variant once; see
`fetchToniesForHousehold`.) -/
theorem C2_retry_behaviour (api : String → ApiResult) (accessToken householdId creativeTonnieId : String)
    (hfail : (api ("/households/" ++ householdId ++ "/creativetonies")).success = false) :
    (verifyCreativeTonie api accessToken householdId creativeTonnieId).2 =
      [Event.api ("/households/" ++ householdId ++ "/creativetonies") accessToken] ∧
    (verifyCreativeTonie api accessToken householdId creativeTonnieId).1 =
      .inl ⟨statusOr500 (api ("/households/" ++ householdId ++ "/creativetonies")).status,
            .verifyFailed (api ("/households/" ++ householdId ++ "/creativetonies")).error⟩ ∧
    (ytFetchCreativeTonies api accessToken householdId).2 =
      [Event.api ("/households/" ++ householdId ++ "/creativetonies") accessToken,
       Event.api ("/households/" ++ householdId ++ "/creative-tonies") accessToken] ∧
    ((api ("/households/" ++ householdId ++ "/creative-tonies")).success = false →
      (ytFetchCreativeTonies api accessToken householdId).1 =
        .error ⟨statusOr500 (api ("/households/" ++ householdId ++ "/creativetonies")).status,
                .fetchToniesFailed (api ("/households/" ++ householdId ++ "/creativetonies")).error⟩) := by
  refine ⟨?_, ?_, ?_, ?_⟩
  · simp [verifyCreativeTonie, hfail]
  · simp [verifyCreativeTonie, hfail]
  · simp only [ytFetchCreativeTonies]
    rw [hfail]
    simp only [Bool.false_eq_true, if_false]
    split <;> rfl
  · intro hfb
    simp only [ytFetchCreativeTonies]
    rw [hfail, hfb]
    simp

/-- Witness for C2 as amended, at an API oracle that fails on every
endpoint. -/
theorem C2_witness :
    (ytFetchCreativeTonies (fun _ => ⟨false, some 502, "HTTP 502: bad gateway", .null⟩)
        "tok" "h7").2 =
      [Event.api "/households/h7/creativetonies" "tok",
       Event.api "/households/h7/creative-tonies" "tok"] ∧
    (ytFetchCreativeTonies (fun _ => ⟨false, some 502, "HTTP 502: bad gateway", .null⟩)
        "tok" "h7").1 =
      .error ⟨502, .fetchToniesFailed "HTTP 502: bad gateway"⟩ := by
  have h := C2_retry_behaviour (fun _ => ⟨false, some 502, "HTTP 502: bad gateway", .null⟩)
    "tok" "h7" "t1" (by decide)
  exact ⟨h.2.2.1, h.2.2.2 (by decide)⟩

/-! ## Claim C6 -/

/-- Claim C6: for every composite identity `householdId/creativeTonieId`,
when the household's creative-tonie listing is fetched successfully: if an
entry with the requested id exists, resolution succeeds with (the first)
such entry; if no such entry exists, the operation fails with a 404
`TargetNotFound` outcome whose payload enumerates the ids and names (and
chapter counts) of the creative tonies actually present in the listing. -/
theorem C6_target_resolution (api : String → ApiResult)
    (accessToken householdId creativeTonnieId : String) (L : List Tonie)
    (hs : (api ("/households/" ++ householdId ++ "/creativetonies")).success = true)
    (hd : (api ("/households/" ++ householdId ++ "/creativetonies")).data = .tonies L) :
    ((∃ t ∈ L, t.id = creativeTonnieId) →
      ∃ t, L.find? (fun t' => t'.id = creativeTonnieId) = some t ∧
        t ∈ L ∧ t.id = creativeTonnieId ∧
        verifyCreativeTonie api accessToken householdId creativeTonnieId =
          (.inr t, [Event.api ("/households/" ++ householdId ++ "/creativetonies") accessToken])) ∧
    ((∀ t ∈ L, t.id ≠ creativeTonnieId) →
      verifyCreativeTonie api accessToken householdId creativeTonnieId =
        (.inl ⟨404, .tonieNotFound
            ("Creative-Tonie with ID \"" ++ creativeTonnieId ++ "\" not found in household \"" ++ householdId ++ "\"")
            (L.map (fun t => (t.id, t.name, chapterCount t)))⟩,
         [Event.api ("/households/" ++ householdId ++ "/creativetonies") accessToken])) := by
  constructor
  · intro hex
    have hsome : (L.find? (fun t' => t'.id = creativeTonnieId)).isSome = true := by
      rw [List.find?_isSome]
      obtain ⟨t, ht, hid⟩ := hex
      exact ⟨t, ht, by simp [hid]⟩
    obtain ⟨t, hfind⟩ := Option.isSome_iff_exists.mp hsome
    refine ⟨t, hfind, List.mem_of_find?_eq_some hfind, by simpa using List.find?_some hfind, ?_⟩
    simp only [verifyCreativeTonie]
    rw [hs, hd]
    simp [asToniesArr, hfind]
  · intro hnone
    have hfind : L.find? (fun t' => t'.id = creativeTonnieId) = none := by
      rw [List.find?_eq_none]
      intro t ht
      simp [hnone t ht]
    simp only [verifyCreativeTonie]
    rw [hs, hd]
    simp [asToniesArr, hfind]

/-- Witness for C6: a two-tonie listing where the requested id is absent
produces the 404 payload enumerating both tonies. -/
theorem C6_witness :
    verifyCreativeTonie
        (fun _ => ⟨true, none, "", .tonies [⟨"t1", "Teddy", some ["a", "b"]⟩, ⟨"t2", "Bear", none⟩]⟩)
        "tok" "h1" "t9" =
      (.inl ⟨404, .tonieNotFound
          "Creative-Tonie with ID \"t9\" not found in household \"h1\""
          [("t1", "Teddy", 2), ("t2", "Bear", 0)]⟩,
       [Event.api "/households/h1/creativetonies" "tok"]) := by
  have h := (C6_target_resolution
    (fun _ => ⟨true, none, "", .tonies [⟨"t1", "Teddy", some ["a", "b"]⟩, ⟨"t2", "Bear", none⟩]⟩)
    "tok" "h1" "t9" [⟨"t1", "Teddy", some ["a", "b"]⟩, ⟨"t2", "Bear", none⟩]
    (by decide) (by decide)).2 (by decide)
  simpa using h

/-! ## Claim C7 -/

/-- Specification-side reading of "the `boundary=` parameter is absent from
the content type": split the header value on `;`, trim each parameter, and
check that none starts with `boundary=`. -/
def specBoundaryParamAbsent (contentType : String) : Bool :=
  ((jsSplit [';'] contentType.data).map trimChars).all
    (fun p => ¬ ("boundary=".data.isPrefixOf p))

deriving instance DecidableEq for Except

/-- Boolean success test for the decode result. -/
def isOkE (r : Except String ParsedMultipart) : Bool :=
  match r with
  | .ok _ => true
  | .error _ => false

/-- Counterexample to claim C7 as stated: the code searches for the
*substring* `boundary=`, not for a parameter of that name.  For the content
type `"multipart/form-data; xboundary=abc"` the `boundary=` parameter is
absent (its only parameter is named `xboundary`), yet decode succeeds
(with boundary `abc`) instead of failing with `DecodeFailed` — so decode
does *not* fail exactly when the parameter is absent. -/
theorem C7_counterexample :
    specBoundaryParamAbsent "multipart/form-data; xboundary=abc" = true ∧
    parseMultipartData "" "multipart/form-data; xboundary=abc" = .ok ⟨[], none, ""⟩ := by decide

/-- Claim C7 as amended: multipart decode fails with a `DecodeFailed`
outcome — and never an unhandled fault, the function is total — exactly when
the content type contains no occurrence of the substring `boundary=`
followed by at least one non-semicolon character (an empty boundary value
counts as absent, and the text `boundary=` embedded in another parameter
name counts as present); whenever a boundary is extracted the decode of any
body succeeds, and a body segment without a `Content-Disposition` line, or
with malformed or missing payload delimiters, is silently skipped (it
contributes no field and no file data) while the remaining segments are
still decoded. -/
theorem C7_decode_failure_and_leniency :
    (∀ body contentType : String,
      (isOkE (parseMultipartData body contentType) = false ↔
        findBoundaryMatch contentType.data = none)) ∧
    (∀ st : ParsedMultipart, ∀ part : List Char,
      containsSub "Content-Disposition".data part = false → processPart st part = st) ∧
    (∀ st : ParsedMultipart, ∀ part : List Char,
      firstIdxOfL "\r\n\r\n".data part = none →
        (processPart st part).fields = st.fields ∧
        (processPart st part).fileData = st.fileData) := by
  refine ⟨?_, ?_, ?_⟩
  · intro body contentType
    unfold parseMultipartData
    cases h : findBoundaryMatch contentType.data <;> simp [isOkE]
  · intro st part h
    unfold processPart
    rw [h]
    simp
  · intro st part h
    unfold processPart
    split
    · exact ⟨rfl, rfl⟩
    · split
      · exact ⟨rfl, rfl⟩
      · split
        · exact ⟨rfl, rfl⟩
        · split
          · rw [h]
            exact ⟨rfl, rfl⟩
          · rw [h]
            exact ⟨rfl, rfl⟩

/-- Witness for C7 as amended: a missing-boundary header fails; a body with
a malformed middle segment still yields the fields of the two well-formed
segments around it. -/
theorem C7_witness :
    isOkE (parseMultipartData "x" "multipart/form-data") = false ∧
    processPart ⟨[("a", "1")], none, ""⟩ "junk no disposition".data = ⟨[("a", "1")], none, ""⟩ ∧
    parseMultipartData
        ("--B\r\nContent-Disposition: form-data; name=\"good\"\r\n\r\nv1\r\n" ++
         "--B\r\nContent-Disposition: form-data; name=\"bad\"\r\nno delimiters here" ++
         "--B\r\nContent-Disposition: form-data; name=\"good2\"\r\n\r\nv2\r\n--B--\r\n")
        "multipart/form-data; boundary=B" =
      .ok ⟨[("good", "v1"), ("good2", "v2")], none, ""⟩ := by
  refine ⟨?_, ?_, by decide⟩
  · exact (C7_decode_failure_and_leniency.1 "x" "multipart/form-data").mpr (by decide)
  · exact C7_decode_failure_and_leniency.2.1 ⟨[("a", "1")], none, ""⟩ "junk no disposition".data
      (by decide)

/-! ## Claim C3 -/

/-- Counterexample to claim C3 as stated: the URL-upload entry path has no
debug bypass.  A request whose chapter title begins with the debug marker
(`"DEBUG mode"`) and whose resolved video validates cleanly still proceeds
past validation and performs an authentication call against the session
provider (the auth-call count is 1, not 0). -/
theorem C3_counterexample :
    Event.auth ∈ (ytHandler ⟨"pw"⟩
      ⟨"POST", some "pw", some "h1/t1", some "DEBUG mode", some "https://youtu.be/x"⟩
      ⟨true, .ok ⟨"DEBUG vid", 10, "someone", "vid123", "d"⟩, .ok 100, "DATA",
       true, "", "tok",
       fun _ => ⟨false, some 500, "down", .null⟩, fun _ => ⟨true, 204, ""⟩, "B"⟩).2 ∧
    ((ytHandler ⟨"pw"⟩
      ⟨"POST", some "pw", some "h1/t1", some "DEBUG mode", some "https://youtu.be/x"⟩
      ⟨true, .ok ⟨"DEBUG vid", 10, "someone", "vid123", "d"⟩, .ok 100, "DATA",
       true, "", "tok",
       fun _ => ⟨false, some 500, "down", .null⟩, fun _ => ⟨true, 204, ""⟩, "B"⟩).2.filter
      (fun e => e = Event.auth)).length = 1 := by decide

/-- Claim C3 as amended: on the *device-upload* path, for every request
whose chapter title begins with the debug marker `DEBUG` (and which passes
the required-field, gate and validation checks preceding that test), the
pipeline short-circuits immediately after payload validation, reporting the
parsed/validated payload, and performs no network call at all — in
particular no authentication call to the session provider.  The URL-upload
path has no such bypass (see the counterexample). -/
theorem C3_debug_short_circuit (env : Env) (req : DeviceReq) (o : Oracles)
    (ct : String) (pr : ParsedMultipart)
    (h1 : req.method = "POST")
    (h2 : req.contentType = some ct)
    (h3 : containsSub "multipart/form-data".data ct.data = true)
    (h4 : parseMultipartData req.rawBody ct = .ok pr)
    (h5 : getField pr.fields "appPassword" ≠ "")
    (h6 : getField pr.fields "tonieId" ≠ "")
    (h7 : getField pr.fields "title" ≠ "")
    (h8 : pr.fileData.isSome = true)
    (h9 : verifyAppPassword env (getField pr.fields "appPassword") = true)
    (h10 : validateFile (pr.fileData.getD "").length pr.filename = [])
    (h11 : startsWithL "DEBUG".data (getField pr.fields "title").data = true) :
    deviceHandler env req o =
      (⟨200, .debugOk pr.filename (pr.fileData.getD "").length
         (getField pr.fields "title") (getField pr.fields "tonieId")⟩,
       [.parse, .gateCheck]) ∧
    (deviceHandler env req o).2.filter isNetEvent = [] := by
  have hmain : deviceHandler env req o =
      (⟨200, .debugOk pr.filename (pr.fileData.getD "").length
         (getField pr.fields "title") (getField pr.fields "tonieId")⟩,
       [.parse, .gateCheck]) := by
    unfold deviceHandler
    rw [h2]
    simp [h1, h3, h4, h5, h6, h7, h8, h9, h10, h11]
  refine ⟨hmain, ?_⟩
  rw [hmain]
  rfl

/-- Witness for C3 as amended: a concrete well-formed multipart request with
title `"DEBUG x"` is answered with the debug report and an empty network
trace. -/
theorem C3_witness :
    deviceHandler ⟨"pw"⟩
      ⟨"POST", some "multipart/form-data; boundary=B",
       "--B\r\nContent-Disposition: form-data; name=\"appPassword\"\r\n\r\npw\r\n" ++
       "--B\r\nContent-Disposition: form-data; name=\"tonieId\"\r\n\r\nh1/t1\r\n" ++
       "--B\r\nContent-Disposition: form-data; name=\"title\"\r\n\r\nDEBUG x\r\n" ++
       "--B\r\nContent-Disposition: form-data; name=\"f\"; filename=\"a.mp3\"\r\n\r\nMP3DATA\r\n--B--\r\n"⟩
      ⟨true, "", "tok", fun _ => ⟨true, none, "", .null⟩, fun _ => ⟨true, 204, ""⟩, "R"⟩ =
      (⟨200, .debugOk "a.mp3" 7 "DEBUG x" "h1/t1"⟩, [.parse, .gateCheck]) :=
  (C3_debug_short_circuit ⟨"pw"⟩
    ⟨"POST", some "multipart/form-data; boundary=B",
     "--B\r\nContent-Disposition: form-data; name=\"appPassword\"\r\n\r\npw\r\n" ++
     "--B\r\nContent-Disposition: form-data; name=\"tonieId\"\r\n\r\nh1/t1\r\n" ++
     "--B\r\nContent-Disposition: form-data; name=\"title\"\r\n\r\nDEBUG x\r\n" ++
     "--B\r\nContent-Disposition: form-data; name=\"f\"; filename=\"a.mp3\"\r\n\r\nMP3DATA\r\n--B--\r\n"⟩
    ⟨true, "", "tok", fun _ => ⟨true, none, "", .null⟩, fun _ => ⟨true, 204, ""⟩, "R"⟩
    "multipart/form-data; boundary=B"
    ⟨[("appPassword", "pw"), ("tonieId", "h1/t1"), ("title", "DEBUG x")], some "MP3DATA", "a.mp3"⟩
    rfl rfl (by decide) (by decide) (by decide) (by decide) (by decide) (by decide)
    (by decide) (by decide) (by decide)).1

/-! ## Claim C4 -/

/-- Specification-side reading of "the shared secret is gated as the first
pipeline step, before multipart decoding": in the event trace, no decode
milestone may precede the gate milestone. -/
def specGatePrecedesDecode : List Event → Bool
  | [] => true
  | Event.gateCheck :: _ => true
  | Event.parse :: _ => false
  | _ :: rest => specGatePrecedesDecode rest

/-- Counterexample to claim C4 as stated: (1) on a well-formed device-upload
request carrying the wrong secret, the multipart body is decoded *before*
the gate runs (the secret travels inside the multipart body, so decoding
cannot come second); (2) on a request whose body carries no `appPassword`
field at all, the gate would fail (`verifyAppPassword` of the missing value
is `false`) yet the response is the 400 missing-fields outcome, not an
authorization-denied 401. -/
theorem C4_counterexample :
    specGatePrecedesDecode (deviceHandler ⟨"pw"⟩
      ⟨"POST", some "multipart/form-data; boundary=B",
       "--B\r\nContent-Disposition: form-data; name=\"appPassword\"\r\n\r\nwrong\r\n" ++
       "--B\r\nContent-Disposition: form-data; name=\"tonieId\"\r\n\r\nh1/t1\r\n" ++
       "--B\r\nContent-Disposition: form-data; name=\"title\"\r\n\r\nSong\r\n" ++
       "--B\r\nContent-Disposition: form-data; name=\"f\"; filename=\"a.mp3\"\r\n\r\nDATA\r\n--B--\r\n"⟩
      ⟨true, "", "tok", fun _ => ⟨true, none, "", .null⟩, fun _ => ⟨true, 204, ""⟩, "R"⟩).2 = false ∧
    verifyAppPassword ⟨"pw"⟩ "" = false ∧
    (deviceHandler ⟨"pw"⟩
      ⟨"POST", some "multipart/form-data; boundary=B",
       "--B\r\nContent-Disposition: form-data; name=\"tonieId\"\r\n\r\nh1/t1\r\n" ++
       "--B\r\nContent-Disposition: form-data; name=\"title\"\r\n\r\nSong\r\n" ++
       "--B\r\nContent-Disposition: form-data; name=\"f\"; filename=\"a.mp3\"\r\n\r\nDATA\r\n--B--\r\n"⟩
      ⟨true, "", "tok", fun _ => ⟨true, none, "", .null⟩, fun _ => ⟨true, 204, ""⟩, "R"⟩).1 =
      ⟨400, .missingFields⟩ := by decide

/-- Claim C4 as amended: on the device-upload path the shared secret is
gated *after* multipart decoding and the required-field check (the secret is
carried inside the multipart body), but before file validation; and every
request that reaches the gate with a failing secret receives the 401
authorization-denied outcome with no upstream network call made (the trace
is exactly decode followed by the gate). -/
theorem C4_gate_after_decode_before_network (env : Env) (req : DeviceReq) (o : Oracles)
    (ct : String) (pr : ParsedMultipart)
    (h1 : req.method = "POST")
    (h2 : req.contentType = some ct)
    (h3 : containsSub "multipart/form-data".data ct.data = true)
    (h4 : parseMultipartData req.rawBody ct = .ok pr)
    (h5 : getField pr.fields "appPassword" ≠ "")
    (h6 : getField pr.fields "tonieId" ≠ "")
    (h7 : getField pr.fields "title" ≠ "")
    (h8 : pr.fileData.isSome = true)
    (h9 : verifyAppPassword env (getField pr.fields "appPassword") = false) :
    deviceHandler env req o = (⟨401, .invalidAppPassword⟩, [.parse, .gateCheck]) ∧
    (deviceHandler env req o).2.filter isNetEvent = [] := by
  have hmain : deviceHandler env req o = (⟨401, .invalidAppPassword⟩, [.parse, .gateCheck]) := by
    unfold deviceHandler
    rw [h2]
    simp [h1, h3, h4, h5, h6, h7, h8, h9]
  refine ⟨hmain, ?_⟩
  rw [hmain]
  rfl

/-- Witness for C4 as amended at a concrete request with the wrong
secret. -/
theorem C4_witness :
    deviceHandler ⟨"pw"⟩
      ⟨"POST", some "multipart/form-data; boundary=B",
       "--B\r\nContent-Disposition: form-data; name=\"appPassword\"\r\n\r\nnope\r\n" ++
       "--B\r\nContent-Disposition: form-data; name=\"tonieId\"\r\n\r\nh1/t1\r\n" ++
       "--B\r\nContent-Disposition: form-data; name=\"title\"\r\n\r\nSong\r\n" ++
       "--B\r\nContent-Disposition: form-data; name=\"f\"; filename=\"a.mp3\"\r\n\r\nDATA\r\n--B--\r\n"⟩
      ⟨true, "", "tok", fun _ => ⟨true, none, "", .null⟩, fun _ => ⟨true, 204, ""⟩, "R"⟩ =
      (⟨401, .invalidAppPassword⟩, [.parse, .gateCheck]) :=
  (C4_gate_after_decode_before_network ⟨"pw"⟩
    ⟨"POST", some "multipart/form-data; boundary=B",
     "--B\r\nContent-Disposition: form-data; name=\"appPassword\"\r\n\r\nnope\r\n" ++
     "--B\r\nContent-Disposition: form-data; name=\"tonieId\"\r\n\r\nh1/t1\r\n" ++
     "--B\r\nContent-Disposition: form-data; name=\"title\"\r\n\r\nSong\r\n" ++
     "--B\r\nContent-Disposition: form-data; name=\"f\"; filename=\"a.mp3\"\r\n\r\nDATA\r\n--B--\r\n"⟩
    ⟨true, "", "tok", fun _ => ⟨true, none, "", .null⟩, fun _ => ⟨true, 204, ""⟩, "R"⟩
    "multipart/form-data; boundary=B"
    ⟨[("appPassword", "nope"), ("tonieId", "h1/t1"), ("title", "Song")], some "DATA", "a.mp3"⟩
    rfl rfl (by decide) (by decide) (by decide) (by decide) (by decide) (by decide)
    (by decide)).1

/-! ## Claim C8 -/


/-- An event that is either an API call issued with the given bearer token
or a storage-backend POST (which carries no bearer token). -/
def apiOrStorage (tok : String) (e : Event) : Prop :=
  (∃ ep, e = Event.api ep tok) ∨ (∃ u, e = Event.storage u)

/-- Shape of a URL-upload trace: either the pipeline stopped before the
session-provider login (no events at all), or the login happened and every
later event is an API call carrying the freshly fetched token or a storage
POST. -/
def YtTraceOK (tok : String) (t : List Event) : Prop :=
  t = [] ∨ ∃ rest, t = .auth :: rest ∧ ∀ e ∈ rest, apiOrStorage tok e

/-- The device-path Creative-Tonie verification block issues exactly one
API call, with the access token it was given. -/
theorem verifyCreativeTonie_snd (api : String → ApiResult) (accessToken householdId creativeTonnieId : String) :
    (verifyCreativeTonie api accessToken householdId creativeTonnieId).2 =
      [Event.api ("/households/" ++ householdId ++ "/creativetonies") accessToken] := by
  simp only [verifyCreativeTonie]
  split
  · split <;> rfl
  · rfl

/-- Every event of the URL-path Creative-Tonies fetch is an API call with
the access token it was given. -/
theorem ytFetchCreativeTonies_events (api : String → ApiResult) (accessToken householdId : String)
    (e : Event) (he : e ∈ (ytFetchCreativeTonies api accessToken householdId).2) :
    ∃ ep, e = Event.api ep accessToken := by
  simp only [ytFetchCreativeTonies] at he
  split at he
  · simp at he
    exact ⟨_, he⟩
  · split at he <;> (simp at he; rcases he with h | h <;> exact ⟨_, h⟩)

/-- Every event of the per-household Creative-Tonies fetch is an API call
with the access token it was given. -/
theorem fetchToniesForHousehold_events (api : String → ApiResult) (accessToken : String)
    (h : Household) (e : Event) (he : e ∈ (fetchToniesForHousehold api accessToken h).2) :
    ∃ ep, e = Event.api ep accessToken := by
  simp only [fetchToniesForHousehold] at he
  split at he
  · simp at he
    exact ⟨_, he⟩
  · split at he <;> (simp at he; rcases he with h | h <;> exact ⟨_, h⟩)

/-- The households listing keeps its inherited event prefix. -/
theorem householdsCore_prefix (o : HhOracles) (accessToken : String) (ev0 : List Event) :
    ∃ rest, (householdsCore o accessToken ev0).2 = ev0 ++ rest := by
  simp only [householdsCore]
  split
  · exact ⟨_, rfl⟩
  · exact ⟨_, List.append_assoc _ _ _⟩

/-- Every event the households listing adds beyond its inherited prefix is
an API call with the access token it was given. -/
theorem householdsCore_events (o : HhOracles) (accessToken : String) (ev0 : List Event)
    (e : Event) (he : e ∈ (householdsCore o accessToken ev0).2) :
    e ∈ ev0 ∨ ∃ ep, e = Event.api ep accessToken := by
  simp only [householdsCore] at he
  split at he
  · rcases List.mem_append.mp he with h | h
    · exact Or.inl h
    · exact Or.inr ⟨_, List.mem_singleton.mp h⟩
  · rcases List.mem_append.mp he with h1 | h2
    · rcases List.mem_append.mp h1 with ha | hb
      · exact Or.inl ha
      · exact Or.inr ⟨_, List.mem_singleton.mp hb⟩
    · rcases List.mem_flatten.mp h2 with ⟨l, hl, hel⟩
      rcases List.mem_map.mp hl with ⟨pair, hpair, hsnd⟩
      rcases List.mem_map.mp hpair with ⟨hh, hhh, hfetch⟩
      subst hfetch
      subst hsnd
      exact Or.inr (fetchToniesForHousehold_events o.api accessToken hh e hel)

/-- Shape of an upload-handler trace with respect to a session token: the
pipeline either stopped before the session-provider login (the trace is a
prefix of `[parse, gateCheck]`), or the login happened and every event after
it is an API call carrying the freshly fetched token or a storage POST. -/
def TraceOK (tok : String) (t : List Event) : Prop :=
  t = [] ∨ t = [.parse] ∨ t = [.parse, .gateCheck] ∨
  ∃ rest, t = .parse :: .gateCheck :: .auth :: rest ∧ ∀ e ∈ rest, apiOrStorage tok e

/-- Trace shape of the device-upload handler. -/
theorem deviceHandler_trace_shape (env : Env) (req : DeviceReq) (o : Oracles) :
    TraceOK o.sessionToken (deviceHandler env req o).2 := by
  simp only [deviceHandler]
  by_cases h1 : req.method = "OPTIONS"
  case pos =>
    simp only [if_pos h1]
    exact Or.inl rfl
  rw [if_neg h1]
  by_cases h2 : req.method = "POST"
  case neg =>
    rw [if_pos h2]
    exact Or.inl rfl
  rw [if_neg (not_not_intro h2)]
  rcases hct : req.contentType with _ | ct
  · simp only [hct]
    exact Or.inl rfl
  simp only [hct]
  by_cases h3 : containsSub "multipart/form-data".data ct.data = true
  case neg =>
    rw [if_pos h3]
    exact Or.inl rfl
  rw [if_neg (not_not_intro h3)]
  rcases hp : parseMultipartData req.rawBody ct with msg | pr
  · simp only [hp]
    exact Or.inr (Or.inl rfl)
  simp only [hp]
  by_cases h4 : (getField pr.fields "appPassword" ≠ "" ∧ getField pr.fields "tonieId" ≠ "" ∧
      getField pr.fields "title" ≠ "" ∧ pr.fileData.isSome = true)
  case neg =>
    rw [if_pos h4]
    exact Or.inr (Or.inl rfl)
  rw [if_neg (not_not_intro h4)]
  by_cases h5 : verifyAppPassword env (getField pr.fields "appPassword") = true
  case neg =>
    rw [if_pos h5]
    exact Or.inr (Or.inr (Or.inl rfl))
  rw [if_neg (not_not_intro h5)]
  by_cases h6 : validateFile (pr.fileData.getD "").length pr.filename = []
  case neg =>
    rw [if_pos h6]
    exact Or.inr (Or.inr (Or.inl rfl))
  rw [if_neg (not_not_intro h6)]
  by_cases h7 : startsWithL "DEBUG".data (getField pr.fields "title").data = true
  case pos =>
    rw [if_pos h7]
    exact Or.inr (Or.inr (Or.inl rfl))
  rw [if_neg h7]
  by_cases h8 : o.authSuccess = true
  case neg =>
    rw [if_pos h8]
    refine Or.inr (Or.inr (Or.inr ⟨[], rfl, ?_⟩))
    intro e he
    exact absurd he (List.not_mem_nil e)
  rw [if_neg (not_not_intro h8)]
  by_cases h9 : (o.api "/file").success = true
  case neg =>
    rw [if_pos h9]
    refine Or.inr (Or.inr (Or.inr ⟨_, rfl, ?_⟩))
    intro e he
    simp only [List.mem_singleton] at he
    subst he
    exact Or.inl ⟨_, rfl⟩
  rw [if_neg (not_not_intro h9)]
  rcases hup : uploadToS3 (asTarget (o.api "/file").data) (pr.fileData.getD "")
      pr.filename o.boundary o.s3 with msg | fileId
  · simp only [hup]
    refine Or.inr (Or.inr (Or.inr ⟨_, rfl, ?_⟩))
    intro e he
    simp only [List.append_eq, List.cons_append, List.nil_append, List.mem_cons,
      List.not_mem_nil, or_false] at he
    rcases he with h | h <;> subst h
    · exact Or.inl ⟨_, rfl⟩
    · exact Or.inr ⟨_, rfl⟩
  simp only [hup]
  rcases hv : verifyCreativeTonie o.api o.sessionToken
      (String.mk ((jsSplit ['/'] (getField pr.fields "tonieId").data).headD []))
      (String.mk (((jsSplit ['/'] (getField pr.fields "tonieId").data).drop 1).headD []))
    with ⟨res, evs⟩
  have hevs0 := congrArg Prod.snd hv
  rw [verifyCreativeTonie_snd] at hevs0
  have hevs : evs = [Event.api ("/households/" ++
      String.mk ((jsSplit ['/'] (getField pr.fields "tonieId").data).headD []) ++
      "/creativetonies") o.sessionToken] := hevs0.symm
  cases res with
  | inl resp =>
    simp only [hv]
    refine Or.inr (Or.inr (Or.inr ⟨_, rfl, ?_⟩))
    intro e he
    rw [hevs] at he
    simp only [List.append_eq, List.cons_append, List.nil_append, List.mem_cons,
      List.not_mem_nil, or_false] at he
    rcases he with h | h | h <;> subst h
    · exact Or.inl ⟨_, rfl⟩
    · exact Or.inr ⟨_, rfl⟩
    · exact Or.inl ⟨_, rfl⟩
  | inr t =>
    simp only [hv]
    by_cases h10 : (o.api ("/households/" ++
        String.mk ((jsSplit ['/'] (getField pr.fields "tonieId").data).headD []) ++
        "/creativetonies/" ++
        String.mk (((jsSplit ['/'] (getField pr.fields "tonieId").data).drop 1).headD []) ++
        "/chapters")).success = true
    case neg =>
      rw [if_pos h10]
      refine Or.inr (Or.inr (Or.inr ⟨_, rfl, ?_⟩))
      intro e he
      rw [hevs] at he
      simp only [List.append_eq, List.cons_append, List.nil_append, List.append_assoc,
        List.mem_cons, List.not_mem_nil, or_false] at he
      rcases he with h | h | h | h <;> subst h
      · exact Or.inl ⟨_, rfl⟩
      · exact Or.inr ⟨_, rfl⟩
      · exact Or.inl ⟨_, rfl⟩
      · exact Or.inl ⟨_, rfl⟩
    rw [if_neg (not_not_intro h10)]
    refine Or.inr (Or.inr (Or.inr ⟨_, rfl, ?_⟩))
    intro e he
    rw [hevs] at he
    simp only [List.append_eq, List.cons_append, List.nil_append, List.append_assoc,
      List.mem_cons, List.not_mem_nil, or_false] at he
    rcases he with h | h | h | h <;> subst h
    · exact Or.inl ⟨_, rfl⟩
    · exact Or.inr ⟨_, rfl⟩
    · exact Or.inl ⟨_, rfl⟩
    · exact Or.inl ⟨_, rfl⟩

/-- Trace shape of the URL-upload handler. -/
theorem ytHandler_trace_shape (env : Env) (req : YtReq) (o : YtOracles) :
    YtTraceOK o.sessionToken (ytHandler env req o).2 := by
  simp only [ytHandler]
  by_cases h1 : req.method = "OPTIONS"
  case pos =>
    simp only [if_pos h1]
    exact Or.inl rfl
  rw [if_neg h1]
  by_cases h2 : req.method = "POST"
  case neg =>
    rw [if_pos h2]
    exact Or.inl rfl
  rw [if_neg (not_not_intro h2)]
  by_cases h3 : (jsTruthy req.appPassword = true ∧ jsTruthy req.tonieId = true ∧
      jsTruthy req.title = true ∧ jsTruthy req.url = true)
  case neg =>
    rw [if_pos h3]
    exact Or.inl rfl
  rw [if_neg (not_not_intro h3)]
  by_cases h4 : verifyAppPassword env (req.appPassword.getD "") = true
  case neg =>
    rw [if_pos h4]
    exact Or.inl rfl
  rw [if_neg (not_not_intro h4)]
  by_cases h5 : o.urlValid = true
  case neg =>
    rw [if_pos h5]
    exact Or.inl rfl
  rw [if_neg (not_not_intro h5)]
  rcases hvi : o.videoInfo with msg | vi
  · simp only [hvi]
    exact Or.inl rfl
  simp only [hvi]
  by_cases h6 : (validateFileYT 0 (cleanFilename vi.title vi.videoId)).length > 1
  case pos =>
    rw [if_pos h6]
    exact Or.inl rfl
  rw [if_neg h6]
  rcases hdl : o.download with msg | fileSize
  · simp only [hdl]
    exact Or.inl rfl
  simp only [hdl]
  by_cases h7 : validateFileYT fileSize (cleanFilename vi.title vi.videoId) ≠ []
  case pos =>
    rw [if_pos h7]
    exact Or.inl rfl
  rw [if_neg h7]
  by_cases h8 : o.authSuccess = true
  case neg =>
    rw [if_pos h8]
    exact Or.inr ⟨[], rfl, fun e he => absurd he (List.not_mem_nil e)⟩
  rw [if_neg (not_not_intro h8)]
  by_cases h9 : (o.api "/file").success = true
  case neg =>
    rw [if_pos h9]
    refine Or.inr ⟨_, rfl, ?_⟩
    intro e he
    simp only [List.mem_singleton] at he
    subst he
    exact Or.inl ⟨_, rfl⟩
  rw [if_neg (not_not_intro h9)]
  rcases hup : uploadToS3 (asTarget (o.api "/file").data) o.fileContent
      (cleanFilename vi.title vi.videoId) o.boundary o.s3 with msg | fileId
  · simp only [hup]
    refine Or.inr ⟨_, rfl, ?_⟩
    intro e he
    simp only [List.append_eq, List.cons_append, List.nil_append, List.mem_cons,
      List.not_mem_nil, or_false] at he
    rcases he with h | h <;> subst h
    · exact Or.inl ⟨_, rfl⟩
    · exact Or.inr ⟨_, rfl⟩
  simp only [hup]
  by_cases h10 : (o.api "/households").success = true
  case neg =>
    rw [if_pos h10]
    refine Or.inr ⟨_, rfl, ?_⟩
    intro e he
    simp only [List.append_eq, List.cons_append, List.nil_append, List.append_assoc,
      List.mem_cons, List.not_mem_nil, or_false] at he
    rcases he with h | h | h <;> subst h
    · exact Or.inl ⟨_, rfl⟩
    · exact Or.inr ⟨_, rfl⟩
    · exact Or.inl ⟨_, rfl⟩
  rw [if_neg (not_not_intro h10)]
  rcases hfh : (asHouseholds (o.api "/households").data).find?
      (fun h => h.id = String.mk ((jsSplit ['/'] (req.tonieId.getD "").data).headD []))
    with _ | hh
  · simp only [hfh]
    refine Or.inr ⟨_, rfl, ?_⟩
    intro e he
    simp only [List.append_eq, List.cons_append, List.nil_append, List.append_assoc,
      List.mem_cons, List.not_mem_nil, or_false] at he
    rcases he with h | h | h <;> subst h
    · exact Or.inl ⟨_, rfl⟩
    · exact Or.inr ⟨_, rfl⟩
    · exact Or.inl ⟨_, rfl⟩
  simp only [hfh]
  rcases hv : ytFetchCreativeTonies o.api o.sessionToken
      (String.mk ((jsSplit ['/'] (req.tonieId.getD "").data).headD []))
    with ⟨resE, evs⟩
  have hevsAll : ∀ e ∈ evs, ∃ ep, e = Event.api ep o.sessionToken := by
    intro e he
    refine ytFetchCreativeTonies_events o.api o.sessionToken
      (String.mk ((jsSplit ['/'] (req.tonieId.getD "").data).headD [])) e ?_
    rw [hv]
    exact he
  cases resE with
  | error resp =>
    simp only [hv]
    refine Or.inr ⟨_, rfl, ?_⟩
    intro e he
    simp only [List.append_eq, List.cons_append, List.nil_append, List.append_assoc,
      List.mem_cons, List.mem_append, List.not_mem_nil, or_false] at he
    rcases he with h | h | h | h
    · subst h
      exact Or.inl ⟨_, rfl⟩
    · subst h
      exact Or.inr ⟨_, rfl⟩
    · subst h
      exact Or.inl ⟨_, rfl⟩
    · obtain ⟨ep, hep⟩ := hevsAll e h
      subst hep
      exact Or.inl ⟨_, rfl⟩
  | ok creativetonies =>
    simp only [hv]
    rcases hft : creativetonies.find?
        (fun t => t.id = String.mk (((jsSplit ['/'] (req.tonieId.getD "").data).drop 1).headD []))
      with _ | t
    · simp only [hft]
      refine Or.inr ⟨_, rfl, ?_⟩
      intro e he
      simp only [List.append_eq, List.cons_append, List.nil_append, List.append_assoc,
        List.mem_cons, List.mem_append, List.not_mem_nil, or_false] at he
      rcases he with h | h | h | h
      · subst h
        exact Or.inl ⟨_, rfl⟩
      · subst h
        exact Or.inr ⟨_, rfl⟩
      · subst h
        exact Or.inl ⟨_, rfl⟩
      · obtain ⟨ep, hep⟩ := hevsAll e h
        subst hep
        exact Or.inl ⟨_, rfl⟩
    simp only [hft]
    by_cases h11 : (o.api ("/households/" ++
        String.mk ((jsSplit ['/'] (req.tonieId.getD "").data).headD []) ++
        "/creativetonies/" ++
        String.mk (((jsSplit ['/'] (req.tonieId.getD "").data).drop 1).headD []) ++
        "/chapters")).success = true
    case neg =>
      rw [if_pos h11]
      refine Or.inr ⟨_, rfl, ?_⟩
      intro e he
      simp only [List.append_eq, List.cons_append, List.nil_append, List.append_assoc,
        List.mem_cons, List.mem_append, List.not_mem_nil, or_false] at he
      rcases he with h | h | h | h | h
      · subst h
        exact Or.inl ⟨_, rfl⟩
      · subst h
        exact Or.inr ⟨_, rfl⟩
      · subst h
        exact Or.inl ⟨_, rfl⟩
      · obtain ⟨ep, hep⟩ := hevsAll e h
        subst hep
        exact Or.inl ⟨_, rfl⟩
      · subst h
        exact Or.inl ⟨_, rfl⟩
    rw [if_neg (not_not_intro h11)]
    refine Or.inr ⟨_, rfl, ?_⟩
    intro e he
    simp only [List.append_eq, List.cons_append, List.nil_append, List.append_assoc,
      List.mem_cons, List.mem_append, List.not_mem_nil, or_false] at he
    rcases he with h | h | h | h | h
    · subst h
      exact Or.inl ⟨_, rfl⟩
    · subst h
      exact Or.inr ⟨_, rfl⟩
    · subst h
      exact Or.inl ⟨_, rfl⟩
    · obtain ⟨ep, hep⟩ := hevsAll e h
      subst hep
      exact Or.inl ⟨_, rfl⟩
    · subst h
      exact Or.inl ⟨_, rfl⟩

/-- Counterexample to claim C8 as stated: the directory listing
(api/households.js) accepts a caller-supplied `sessionToken` in place of a
fresh login.  With a caller token `"callerTok"` the handler performs its
API call with that token and never contacts the session provider. -/
theorem C8_counterexample :
    (householdsHandler ⟨"pw"⟩ ⟨"POST", some "pw", some "callerTok"⟩
        ⟨true, "", "freshTok", fun _ => ⟨false, some 500, "down", .null⟩⟩).2 =
      [Event.api "/households" "callerTok"] ∧
    Event.auth ∉ (householdsHandler ⟨"pw"⟩ ⟨"POST", some "pw", some "callerTok"⟩
        ⟨true, "", "freshTok", fun _ => ⟨false, some 500, "down", .null⟩⟩).2 := by decide

/-- Claim C8 as amended: on both upload paths every Tonie-API call within a
request is made with the access token freshly fetched from the session
provider during that same request (there is no cache, and the caller cannot
supply a token).  The directory listing authenticates from scratch only when
the caller does not supply a `sessionToken`; a caller-supplied (non-empty)
token is accepted and used for every API call of that request in place of a
fresh login, and no authentication call happens. -/
theorem C8_token_usage :
    (∀ (env : Env) (req : DeviceReq) (o : Oracles) (ep tok : String),
      Event.api ep tok ∈ (deviceHandler env req o).2 →
        tok = o.sessionToken ∧ Event.auth ∈ (deviceHandler env req o).2) ∧
    (∀ (env : Env) (req : YtReq) (o : YtOracles) (ep tok : String),
      Event.api ep tok ∈ (ytHandler env req o).2 →
        tok = o.sessionToken ∧ Event.auth ∈ (ytHandler env req o).2) ∧
    (∀ (env : Env) (req : HhReq) (o : HhOracles) (s : String),
      req.sessionToken = some s → s ≠ "" →
        Event.auth ∉ (householdsHandler env req o).2 ∧
        ∀ ep tok, Event.api ep tok ∈ (householdsHandler env req o).2 → tok = s) ∧
    (∀ (env : Env) (req : HhReq) (o : HhOracles),
      jsTruthy req.sessionToken = false →
        ∀ ep tok, Event.api ep tok ∈ (householdsHandler env req o).2 →
          tok = o.sessionToken ∧ Event.auth ∈ (householdsHandler env req o).2) := by
  refine ⟨?_, ?_, ?_, ?_⟩
  · intro env req o ep tok h
    rcases deviceHandler_trace_shape env req o with hs | hs | hs | ⟨rest, heq, hall⟩
    · rw [hs] at h
      exact absurd h (List.not_mem_nil _)
    · rw [hs] at h
      simp at h
    · rw [hs] at h
      simp at h
    · rw [heq] at h
      rcases List.mem_cons.mp h with hc | h
      · exact absurd hc (by simp)
      rcases List.mem_cons.mp h with hc | h
      · exact absurd hc (by simp)
      rcases List.mem_cons.mp h with hc | h
      · exact absurd hc (by simp)
      rcases hall _ h with ⟨ep2, heq2⟩ | ⟨u, heq2⟩
      · refine ⟨?_, by rw [heq]; simp⟩
        injection heq2
      · exact absurd heq2 (by simp)
  · intro env req o ep tok h
    rcases ytHandler_trace_shape env req o with hs | ⟨rest, heq, hall⟩
    · rw [hs] at h
      exact absurd h (List.not_mem_nil _)
    · rw [heq] at h
      rcases List.mem_cons.mp h with hc | h
      · exact absurd hc (by simp)
      rcases hall _ h with ⟨ep2, heq2⟩ | ⟨u, heq2⟩
      · refine ⟨?_, by rw [heq]; simp⟩
        injection heq2
      · exact absurd heq2 (by simp)
  · intro env req o s hsome hne
    have htruthy : jsTruthy req.sessionToken = true := by
      rw [hsome]
      simp [jsTruthy, hne]
    simp only [householdsHandler]
    by_cases h1 : req.method = "OPTIONS"
    case pos =>
      simp only [if_pos h1]
      exact ⟨List.not_mem_nil _, fun ep tok h => absurd h (List.not_mem_nil _)⟩
    rw [if_neg h1]
    by_cases h2 : req.method = "POST"
    case neg =>
      rw [if_pos h2]
      exact ⟨List.not_mem_nil _, fun ep tok h => absurd h (List.not_mem_nil _)⟩
    rw [if_neg (not_not_intro h2)]
    by_cases h3 : verifyAppPassword env (req.appPassword.getD "") = true
    case neg =>
      rw [if_pos h3]
      exact ⟨List.not_mem_nil _, fun ep tok h => absurd h (List.not_mem_nil _)⟩
    rw [if_neg (not_not_intro h3), if_pos htruthy]
    rw [hsome]
    simp only [Option.getD_some]
    constructor
    · intro hauth
      rcases householdsCore_events o s [] Event.auth hauth with hc | ⟨ep, heq⟩
      · exact absurd hc (List.not_mem_nil _)
      · simp at heq
    · intro ep tok h
      rcases householdsCore_events o s [] (Event.api ep tok) h with hc | ⟨ep2, heq⟩
      · exact absurd hc (List.not_mem_nil _)
      · injection heq
  · intro env req o hfalsy ep tok h
    simp only [householdsHandler] at h ⊢
    by_cases h1 : req.method = "OPTIONS"
    case pos =>
      rw [if_pos h1] at h
      exact absurd h (List.not_mem_nil _)
    rw [if_neg h1] at h ⊢
    by_cases h2 : req.method = "POST"
    case neg =>
      rw [if_pos h2] at h
      exact absurd h (List.not_mem_nil _)
    rw [if_neg (not_not_intro h2)] at h ⊢
    by_cases h3 : verifyAppPassword env (req.appPassword.getD "") = true
    case neg =>
      rw [if_pos h3] at h
      exact absurd h (List.not_mem_nil _)
    rw [if_neg (not_not_intro h3)] at h ⊢
    rw [if_neg (by rw [hfalsy]; simp)] at h ⊢
    by_cases h4 : o.authSuccess = true
    case neg =>
      rw [if_pos h4] at h
      simp at h
    rw [if_neg (not_not_intro h4)] at h ⊢
    constructor
    · rcases householdsCore_events o o.sessionToken [.auth] (Event.api ep tok) h with hc | ⟨ep2, heq⟩
      · simp at hc
      · injection heq
    · obtain ⟨rest, hpre⟩ := householdsCore_prefix o o.sessionToken [.auth]
      rw [hpre]
      simp

/-- Witness for C8 as amended: a concrete successful device upload fetches a
fresh token, and every API call of the run carries it. -/
theorem C8_witness :
    "tok" = (⟨true, "", "tok",
        (fun ep => if ep = "/file" then
            ⟨true, none, "", .target ⟨"fid", ⟨"https://s3", [("k", "v")]⟩⟩⟩
          else if ep = "/households/h1/creativetonies" then
            ⟨true, none, "", .tonies [⟨"t1", "Ted", some []⟩]⟩
          else ⟨true, none, "", .null⟩),
        (fun _ => ⟨true, 204, ""⟩), "B"⟩ : Oracles).sessionToken ∧
    Event.auth ∈ (deviceHandler ⟨"pw"⟩
      ⟨"POST", some "multipart/form-data; boundary=B",
       "--B\r\nContent-Disposition: form-data; name=\"appPassword\"\r\n\r\npw\r\n" ++
       "--B\r\nContent-Disposition: form-data; name=\"tonieId\"\r\n\r\nh1/t1\r\n" ++
       "--B\r\nContent-Disposition: form-data; name=\"title\"\r\n\r\nSong\r\n" ++
       "--B\r\nContent-Disposition: form-data; name=\"f\"; filename=\"a.mp3\"\r\n\r\nDATA\r\n--B--\r\n"⟩
      ⟨true, "", "tok",
        (fun ep => if ep = "/file" then
            ⟨true, none, "", .target ⟨"fid", ⟨"https://s3", [("k", "v")]⟩⟩⟩
          else if ep = "/households/h1/creativetonies" then
            ⟨true, none, "", .tonies [⟨"t1", "Ted", some []⟩]⟩
          else ⟨true, none, "", .null⟩),
        (fun _ => ⟨true, 204, ""⟩), "B"⟩).2 :=
  C8_token_usage.1 ⟨"pw"⟩
    ⟨"POST", some "multipart/form-data; boundary=B",
     "--B\r\nContent-Disposition: form-data; name=\"appPassword\"\r\n\r\npw\r\n" ++
     "--B\r\nContent-Disposition: form-data; name=\"tonieId\"\r\n\r\nh1/t1\r\n" ++
     "--B\r\nContent-Disposition: form-data; name=\"title\"\r\n\r\nSong\r\n" ++
     "--B\r\nContent-Disposition: form-data; name=\"f\"; filename=\"a.mp3\"\r\n\r\nDATA\r\n--B--\r\n"⟩
    ⟨true, "", "tok",
      (fun ep => if ep = "/file" then
          ⟨true, none, "", .target ⟨"fid", ⟨"https://s3", [("k", "v")]⟩⟩⟩
        else if ep = "/households/h1/creativetonies" then
          ⟨true, none, "", .tonies [⟨"t1", "Ted", some []⟩]⟩
        else ⟨true, none, "", .null⟩),
      (fun _ => ⟨true, 204, ""⟩), "B"⟩
    "/file" "tok" (by decide)

end TonieUploader
